import Mathlib

/-!
# Shallow embedding of the `thc-shortages` invoice-shortage pipeline

This file embeds the core of the repository — `src/transform.py`,
`src/shortage_logic.py`, `src/quality.py` and `src/analytics.py` — as pure
Lean functions over lists of records, and proves the specification claims
about them.

Modelling conventions:
* A pandas `DataFrame` is a `List` of records; columnwise pandas operations
  become `List.map` / `List.filter` over the rows.
* Monetary values are exact rationals `ℚ`; `Series.round(n)` (numpy's
  round-half-to-even) is embedded as `roundTo`.
* Calendar dates are `Date` triples; `pd.to_datetime(_, dayfirst=b)` applied
  to a cell is embedded by `to_datetime`, covering the two cell shapes that
  reach the core: an already-parsed `datetime.date` object (ingestion parses
  the date columns) and a `d/m/y`-slash string, with dateutil's
  dayfirst-with-fallback-swap semantics.
* Missing values (pandas `NaN`/`NA`) are `Option.none`.
* `today` (`date.today()` in the source) is passed explicitly.
-/

/-- Python `str.upper` on one character (ASCII, which covers the status and
currency codes the pipeline compares). -/
def charUpper (c : Char) : Char :=
  if c.isLower then Char.ofNat (c.toNat - 32) else c

/-- Python `str.upper` (ASCII). -/
def strUpper (s : String) : String := ⟨s.data.map charUpper⟩

/-- Python `str.lower` on one character (ASCII). -/
def charLower (c : Char) : Char :=
  if c.isUpper then Char.ofNat (c.toNat + 32) else c

/-- Python `str.lower` (ASCII). -/
def strLower (s : String) : String := ⟨s.data.map charLower⟩

/-- Python `str.strip()`: drop leading and trailing whitespace. -/
def strTrim (s : String) : String :=
  ⟨((s.data.dropWhile Char.isWhitespace).reverse.dropWhile Char.isWhitespace).reverse⟩

/-- Split a character list on a separator (Python `str.split(sep)`). -/
def splitChar (sep : Char) : List Char → List (List Char)
  | [] => [[]]
  | c :: cs =>
    if c = sep then [] :: splitChar sep cs
    else
      match splitChar sep cs with
      | [] => [[c]]
      | g :: gs => (c :: g) :: gs

/-- Parse a non-empty all-digit character list as a decimal number. -/
def digitsToNat (l : List Char) : Option Nat :=
  if l ≠ [] ∧ l.all Char.isDigit then
    some (l.foldl (fun n c => n * 10 + (c.toNat - 48)) 0)
  else none

/-- A calendar date (proleptic Gregorian, year ≥ 1 for all dates the pipeline
parses). -/
structure Date where
  year : Nat
  month : Nat
  day : Nat
deriving DecidableEq

/-- Gregorian leap-year rule. -/
def isLeapYear (y : Nat) : Bool :=
  (y % 4 == 0 && y % 100 != 0) || (y % 400 == 0)

/-- Number of days in a month of a given year. -/
def daysInMonth (y m : Nat) : Nat :=
  if m = 2 then (if isLeapYear y then 29 else 28)
  else if m = 4 ∨ m = 6 ∨ m = 9 ∨ m = 11 then 30
  else 31

/-- Build a date after validating the month/day ranges, as the underlying
date library does: an out-of-range component makes the candidate invalid. -/
def mkValidDate (y m d : Nat) : Option Date :=
  if 1 ≤ y ∧ 1 ≤ m ∧ m ≤ 12 ∧ 1 ≤ d ∧ d ≤ daysInMonth y m then
    some ⟨y, m, d⟩
  else
    none

/-- Day number of a civil date (days since 0000-03-01, civil-calendar day
count); differences of `toDays` values are exact day distances, matching
`(t1 - t2).dt.days` on pandas timestamps. -/
def Date.toDays (dt : Date) : Nat :=
  let y := if dt.month ≤ 2 then dt.year - 1 else dt.year
  let era := y / 400
  let yoe := y % 400
  let mp := (dt.month + 9) % 12
  let doy := (153 * mp + 2) / 5 + dt.day - 1
  let doe := yoe * 365 + yoe / 4 - yoe / 100 + doy
  era * 146097 + doe

/-- dateutil's interpretation of an ambiguous `a/b/y` slash date:
`dayfirst=True` tries day-then-month and falls back to month-then-day when
that is invalid; `dayfirst=False` tries month-then-day first. -/
def interpretSlash (dayfirst : Bool) (a b y : Nat) : Option Date :=
  if dayfirst then
    match mkValidDate y b a with
    | some d => some d
    | none => mkValidDate y a b
  else
    match mkValidDate y a b with
    | some d => some d
    | none => mkValidDate y b a

/-- Parse a `a/b/y` slash-formatted date string under the given dayfirst
convention; any other shape fails to parse (pandas yields `NaT` under
`errors="coerce"`). -/
def parseSlashDate (dayfirst : Bool) (s : String) : Option Date :=
  match (splitChar '/' s.data).map digitsToNat with
  | [some a, some b, some y] => interpretSlash dayfirst a b y
  | _ => none

/-- A date-column cell as it reaches the core stages: either an
already-parsed `datetime.date` object or a raw string. -/
inductive DateCell where
  | dt (d : Date)
  | str (s : String)
deriving DecidableEq

/-- `pd.to_datetime(cell, dayfirst=b, errors="coerce")` on a single cell: a
date object passes through unchanged (`dayfirst` is ignored for it); a
string is parsed under the given convention; failures coerce to `NaT`
(`none`). -/
def to_datetime (dayfirst : Bool) : DateCell → Option Date
  | .dt d => some d
  | .str s => parseSlashDate dayfirst s

/-- Round-half-to-even to an integer (numpy's rounding mode, used by
`Series.round`). -/
def roundHalfEvenInt (x : ℚ) : ℤ :=
  let f := ⌊x⌋
  let r := x - f
  if r < 1 / 2 then f
  else if 1 / 2 < r then f + 1
  else if f % 2 = 0 then f else f + 1

/-- `Series.round(n)`: round-half-to-even at `n` decimal places. -/
def roundTo (n : ℕ) (x : ℚ) : ℚ :=
  (roundHalfEvenInt (x * 10 ^ n) : ℚ) / 10 ^ n

/-- `SettingsConfig` from `src/utils.py` (`config/settings.yaml`). Paths are
kept as plain strings; the core never touches the filesystem. -/
structure SettingsConfig where
  input_raw_dir : String
  output_processed_dir : String
  date_format : String
  aging_days_threshold : Int
  currency_expected : String
  round_decimals : Nat
  partition_by_year : Bool
  tolerance_small_delta_usd : ℚ
deriving DecidableEq

/-- `RulesConfig` from `src/utils.py` (`config/rules.yaml`). -/
structure RulesConfig where
  eligible_statuses : List String
  shortage_required_flags : List String
  use_strict_currency_check : Bool
deriving DecidableEq

/-- One raw invoice row as handed to `transform_invoices`: the required
columns of `src/io.py`, with nullable numeric/string cells as `Option`. -/
structure RawRecord where
  invoiceDate : DateCell
  paymentDueDate : DateCell
  invoiceStatus : String
  actualPaidAmount : Option ℚ
  paidAmountCurrency : String
  invoiceCreationDate : DateCell
  randomizedInvoice : String
  invoiceAmount : Option ℚ
  invoiceCurrency : String
  anyDeductions : Bool
  randomizedLatestChildInvoice : Option String
  randomizedPO : String
deriving DecidableEq

/-- A row after `transform_invoices`: the amount columns have been
`fillna(0.0)`-overwritten (hence no longer optional) and the derived columns
`Invoice_Delta`, `Child_Invoice_Present`, `Payment_Year` added. -/
structure TransformedRecord where
  invoiceDate : DateCell
  paymentDueDate : DateCell
  invoiceStatus : String
  actualPaidAmount : ℚ
  paidAmountCurrency : String
  invoiceCreationDate : DateCell
  randomizedInvoice : String
  invoiceAmount : ℚ
  invoiceCurrency : String
  anyDeductions : Bool
  randomizedLatestChildInvoice : Option String
  randomizedPO : String
  invoiceDelta : ℚ
  childInvoicePresent : Bool
  paymentYear : Option Nat
deriving DecidableEq

/-- The dayfirst flag Transform derives from the configuration
(`transform.py` line 35: `settings.date_format.lower() in {"dayfirst",
"dd/mm/yyyy"}`). -/
def dayfirstFlag (s : SettingsConfig) : Bool :=
  strLower s.date_format == "dayfirst" || strLower s.date_format == "dd/mm/yyyy"

/-- The due-date parse Transform performs for `Payment_Year`
(`transform.py` lines 32-37): honours the configured convention. -/
def transform_parse_due (s : SettingsConfig) (cell : DateCell) : Option Date :=
  to_datetime (dayfirstFlag s) cell

/-- Row-level body of `transform_invoices` (`src/transform.py`): default
missing amounts to 0, compute the rounded delta, child-invoice presence
(`astype("string").str.strip().fillna("").ne("")`) and the payment year. -/
def transform_record (s : SettingsConfig) (a : RawRecord) : TransformedRecord :=
  let invAmt := a.invoiceAmount.getD 0
  let paidAmt := a.actualPaidAmount.getD 0
  { invoiceDate := a.invoiceDate
    paymentDueDate := a.paymentDueDate
    invoiceStatus := a.invoiceStatus
    actualPaidAmount := paidAmt
    paidAmountCurrency := a.paidAmountCurrency
    invoiceCreationDate := a.invoiceCreationDate
    randomizedInvoice := a.randomizedInvoice
    invoiceAmount := invAmt
    invoiceCurrency := a.invoiceCurrency
    anyDeductions := a.anyDeductions
    randomizedLatestChildInvoice := a.randomizedLatestChildInvoice
    randomizedPO := a.randomizedPO
    invoiceDelta := roundTo s.round_decimals (invAmt - paidAmt)
    childInvoicePresent := !(((a.randomizedLatestChildInvoice.map strTrim).getD "") == "")
    paymentYear := (transform_parse_due s a.paymentDueDate).map Date.year }

/-- `transform_invoices` (`src/transform.py`): the columnwise operations act
row-by-row, so the stage is the per-row body mapped over the table. -/
def transform_invoices (s : SettingsConfig) (df : List RawRecord) : List TransformedRecord :=
  df.map (transform_record s)

/-- A row after `apply_shortage_logic`: the transformed columns plus
`Shortage_Flag`, `Shortage_Amount_USD`, `Days_Past_Due`, `Age_Bucket`. -/
structure EvaluatedRecord extends TransformedRecord where
  shortageFlag : Bool
  shortageAmountUSD : ℚ
  daysPastDue : Int
  ageBucket : String
deriving DecidableEq

/-- The due-date parse the shortage stage performs for `Days_Past_Due`
(`shortage_logic.py` line 42): the convention is hard-coded to
`dayfirst=True`, independent of the configuration. -/
def shortage_parse_due (cell : DateCell) : Option Date :=
  to_datetime true cell

/-- The shortage predicate of `apply_shortage_logic` (`shortage_logic.py`
lines 30-37): delta strictly above tolerance, a deduction or child invoice
present, and the upper-cased status in the eligible list. -/
def shortage_condition (s : SettingsConfig) (ru : RulesConfig) (r : TransformedRecord) : Bool :=
  decide (s.tolerance_small_delta_usd < r.invoiceDelta)
    && (r.anyDeductions || r.childInvoicePresent)
    && ru.eligible_statuses.contains (strUpper r.invoiceStatus)

/-- Row-level body of `apply_shortage_logic` (`src/shortage_logic.py`):
flag, shortage amount (`delta.where(flag, 0.0)`), days past due
(`(today - due).dt.days` then `clip(lower=0).fillna(0)`), and the age
bucket. -/
def evaluate_record (today : Date) (s : SettingsConfig) (ru : RulesConfig)
    (r : TransformedRecord) : EvaluatedRecord :=
  let flag := shortage_condition s ru r
  let daysPastDue : Int :=
    match shortage_parse_due r.paymentDueDate with
    | none => 0
    | some d => max ((today.toDays : Int) - (d.toDays : Int)) 0
  { toTransformedRecord := r
    shortageFlag := flag
    shortageAmountUSD := if flag then r.invoiceDelta else 0
    daysPastDue := daysPastDue
    ageBucket := if s.aging_days_threshold < daysPastDue then "Aged" else "Current" }

/-- `apply_shortage_logic` (`src/shortage_logic.py`): per-row evaluation
mapped over the table. -/
def apply_shortage_logic (today : Date) (s : SettingsConfig) (ru : RulesConfig)
    (df : List TransformedRecord) : List EvaluatedRecord :=
  df.map (evaluate_record today s ru)

/-- The error taxonomy of `run_quality_checks` (`src/quality.py`): the
spec's single `ValidationError` class, with one constructor per `raise`
site (empty input, Pandera schema failure, currency non-compliance, an
unparseable date column, a future-dated column). -/
inductive ValidationError where
  | emptyDataFrame
  | schemaError
  | nonCompliantCurrency
  | invalidDate (column : String)
  | futureDate (column : String)
deriving DecidableEq

/-- Content of the Pandera schema of `_build_schema` that is not already
enforced by the record type (columns present, non-null, well-typed): the
`Check.ge(0)` bounds on `Actual Paid Amount` and `Invoice Amount`. -/
def build_schema_validate (df : List EvaluatedRecord) : Except ValidationError Unit :=
  if df.all (fun r => decide (0 ≤ r.actualPaidAmount) && decide (0 ≤ r.invoiceAmount)) then
    Except.ok ()
  else
    Except.error ValidationError.schemaError

/-- `_validate_currency` (`src/quality.py`): both currency columns must
equal the expected currency case-insensitively on every row. -/
def validate_currency (df : List EvaluatedRecord) (expected : String) :
    Except ValidationError Unit :=
  if df.all (fun r =>
      (strUpper r.paidAmountCurrency == strUpper expected)
        && (strUpper r.invoiceCurrency == strUpper expected)) then
    Except.ok ()
  else
    Except.error ValidationError.nonCompliantCurrency

/-- One column pass of `_validate_dates`: parse with the default convention
(`pd.to_datetime(col, errors="coerce")`, i.e. `dayfirst=False`); raise on
any unparseable cell, then on any cell strictly later than today. -/
def validate_date_column (today : Date) (column : String) (cells : List DateCell) :
    Except ValidationError Unit :=
  if cells.any (fun c => (to_datetime false c).isNone) then
    Except.error (ValidationError.invalidDate column)
  else if cells.any (fun c =>
      match to_datetime false c with
      | some d => decide (today.toDays < d.toDays)
      | none => false) then
    Except.error (ValidationError.futureDate column)
  else
    Except.ok ()

/-- `_validate_dates` (`src/quality.py`): the three date columns are
checked in source order, failing fast. -/
def validate_dates (today : Date) (df : List EvaluatedRecord) : Except ValidationError Unit :=
  match validate_date_column today "Invoice Date" (df.map (fun r => r.invoiceDate)) with
  | Except.error e => Except.error e
  | Except.ok _ =>
    match validate_date_column today "Payment Due Date" (df.map (fun r => r.paymentDueDate)) with
    | Except.error e => Except.error e
    | Except.ok _ =>
      validate_date_column today "Invoice Creation Date" (df.map (fun r => r.invoiceCreationDate))

/-- `run_quality_checks` (`src/quality.py`): empty-input check first, then
schema validation, then the currency and date business checks; the function
returns nothing (`None` in the source) — it only raises or passes. -/
def run_quality_checks (today : Date) (df : List EvaluatedRecord)
    (s : SettingsConfig) (_ru : RulesConfig) : Except ValidationError Unit :=
  if df.isEmpty then Except.error ValidationError.emptyDataFrame
  else
    match build_schema_validate df with
    | Except.error e => Except.error e
    | Except.ok _ =>
      match validate_currency df s.currency_expected with
      | Except.error e => Except.error e
      | Except.ok _ => validate_dates today df

/-- State-passing translation of `run_quality_checks`: the DataFrame is
threaded as the mutable state a Python callee could write to; no statement
of the source assigns to `df` or any of its columns, so the translation
returns the state unchanged alongside the result. -/
def run_quality_checks_state (today : Date) (df : List EvaluatedRecord)
    (s : SettingsConfig) (ru : RulesConfig) :
    Except ValidationError Unit × List EvaluatedRecord :=
  (run_quality_checks today df s ru, df)

/-- The quality gate as the pipeline wires it (`src/pipeline.py` lines
40-44): `run_quality_checks(invoices_flagged, ...)` is called for effect
only, and the downstream stages consume `invoices_flagged` itself. -/
def qualityGate (today : Date) (df : List EvaluatedRecord)
    (s : SettingsConfig) (ru : RulesConfig) :
    Except ValidationError (List EvaluatedRecord) :=
  match run_quality_checks today df s ru with
  | Except.error e => Except.error e
  | Except.ok _ => Except.ok df

/-- One row of the `aged_invoices_by_year` KPI table
(`src/analytics.py` lines 61-77). -/
structure AgedInvoiceRow where
  paymentYear : Nat
  invoiceCount : Nat
  shortageCount : Nat
  totalInvoiceUSD : ℚ
  totalShortageUSD : ℚ
deriving DecidableEq

/-- The aggregate row `compute_kpis` produces for one payment-year group of
the Aged records: `count` of the non-null invoice ids (always non-null
here, hence the group size), `sum` of the boolean shortage flags (the
number of flagged rows), and the two rounded monetary sums. -/
def mkAgedRow (s : SettingsConfig) (aged : List EvaluatedRecord) (y : Nat) : AgedInvoiceRow :=
  let group := aged.filter (fun r => r.paymentYear == some y)
  { paymentYear := y
    invoiceCount := group.length
    shortageCount := (group.filter (fun r => r.shortageFlag)).length
    totalInvoiceUSD := roundTo s.round_decimals (group.map (fun r => r.invoiceAmount)).sum
    totalShortageUSD := roundTo s.round_decimals (group.map (fun r => r.shortageAmountUSD)).sum }

/-- The `aged_invoices_by_year` table of `compute_kpis`
(`src/analytics.py` lines 61-77): restrict to `Age_Bucket == "Aged"` over
ALL records, group by `Payment_Year` with `dropna=True` (rows without a
year are excluded), one group per distinct year, keys sorted ascending
(pandas `groupby` default `sort=True`). -/
def aged_invoices_by_year (s : SettingsConfig) (df : List EvaluatedRecord) :
    List AgedInvoiceRow :=
  let aged := df.filter (fun r => r.ageBucket == "Aged")
  let years := (aged.filterMap (fun r => r.paymentYear)).toFinset.sort (· ≤ ·)
  years.map (mkAgedRow s aged)

/-! ## Concrete fixtures (the test-suite configuration of `tests/`) -/

/-- The settings fixture used across the repository's test modules. -/
def sampleSettings : SettingsConfig :=
  { input_raw_dir := "data/raw"
    output_processed_dir := "data/processed"
    date_format := "dayfirst"
    aging_days_threshold := 90
    currency_expected := "USD"
    round_decimals := 2
    partition_by_year := true
    tolerance_small_delta_usd := 1 / 100 }

/-- The rules fixture used across the repository's test modules. -/
def sampleRules : RulesConfig :=
  { eligible_statuses := ["PAID", "PAID_PRICE_DISCREPANCY"]
    shortage_required_flags := ["Any Deductions", "Child_Invoice_Present"]
    use_strict_currency_check := true }

/-- A frozen evaluation day. -/
def sampleToday : Date := ⟨2025, 6, 15⟩

/-- A transformed row whose delta sits exactly on the tolerance. -/
def boundaryRecord : TransformedRecord :=
  { invoiceDate := DateCell.dt ⟨2025, 5, 1⟩
    paymentDueDate := DateCell.dt ⟨2025, 3, 7⟩
    invoiceStatus := "PAID"
    actualPaidAmount := 9999 / 100
    paidAmountCurrency := "USD"
    invoiceCreationDate := DateCell.dt ⟨2025, 4, 20⟩
    randomizedInvoice := "INV-001"
    invoiceAmount := 100
    invoiceCurrency := "USD"
    anyDeductions := true
    randomizedLatestChildInvoice := none
    randomizedPO := "PO-123"
    invoiceDelta := 1 / 100
    childInvoicePresent := false
    paymentYear := some 2025 }

/-! ## Claim theorems: shortage evaluation -/

/-- The evaluation stage copies the transformed columns unchanged. -/
@[simp]
theorem evaluate_record_toTransformed (today : Date) (s : SettingsConfig) (ru : RulesConfig)
    (a : TransformedRecord) :
    (evaluate_record today s ru a).toTransformedRecord = a := rfl

/-- Unfolding of the `Days_Past_Due` column of the evaluation stage. -/
theorem evaluate_record_daysPastDue (today : Date) (s : SettingsConfig) (ru : RulesConfig)
    (a : TransformedRecord) :
    (evaluate_record today s ru a).daysPastDue =
      match shortage_parse_due a.paymentDueDate with
      | none => 0
      | some d => max ((today.toDays : Int) - (d.toDays : Int)) 0 := rfl

/-- Unfolding of the `Age_Bucket` column of the evaluation stage. -/
theorem evaluate_record_ageBucket (today : Date) (s : SettingsConfig) (ru : RulesConfig)
    (a : TransformedRecord) :
    (evaluate_record today s ru a).ageBucket =
      (if s.aging_days_threshold < (evaluate_record today s ru a).daysPastDue
        then "Aged" else "Current") := rfl

/-- Unfolding of the `Shortage_Flag` column of the evaluation stage. -/
theorem evaluate_record_shortageFlag (today : Date) (s : SettingsConfig) (ru : RulesConfig)
    (a : TransformedRecord) :
    (evaluate_record today s ru a).shortageFlag = shortage_condition s ru a := rfl

/-- Claim C1: after shortage evaluation, a record's flag holds iff its delta
is strictly above the configured tolerance, a deduction or child invoice is
present, and its upper-cased status belongs to the eligible list; a delta
exactly equal to the tolerance never flags. -/
theorem shortage_flag_iff_predicate (today : Date) (s : SettingsConfig) (ru : RulesConfig)
    (df : List TransformedRecord) (r : EvaluatedRecord)
    (hr : r ∈ apply_shortage_logic today s ru df) :
    (r.shortageFlag = true ↔
      (s.tolerance_small_delta_usd < r.invoiceDelta
        ∧ (r.anyDeductions = true ∨ r.childInvoicePresent = true)
        ∧ strUpper r.invoiceStatus ∈ ru.eligible_statuses))
    ∧ (r.invoiceDelta = s.tolerance_small_delta_usd → r.shortageFlag = false) := by
  obtain ⟨a, ha, rfl⟩ := List.mem_map.mp hr
  constructor
  · rw [evaluate_record_shortageFlag]
    simp [shortage_condition, and_assoc]
  · intro hEq
    rw [evaluate_record_shortageFlag]
    have hdelta : (evaluate_record today s ru a).invoiceDelta = a.invoiceDelta := rfl
    rw [hdelta] at hEq
    simp [shortage_condition, hEq]

/-- Witness for C1 at the boundary fixture: delta equal to the tolerance
yields no flag even with a deduction present and an eligible status. -/
theorem shortage_flag_iff_predicate_witness :
    (evaluate_record sampleToday sampleSettings sampleRules boundaryRecord).shortageFlag
      = false :=
  (shortage_flag_iff_predicate sampleToday sampleSettings sampleRules [boundaryRecord]
      (evaluate_record sampleToday sampleSettings sampleRules boundaryRecord)
      (List.mem_map.mpr ⟨boundaryRecord, List.mem_singleton.mpr rfl, rfl⟩)).2 rfl

/-- Claim C2: after shortage evaluation, the shortage amount is exactly the
delta when the flag is set and exactly 0 otherwise, for every record
(including negative or zero deltas — the equality is exact over ℚ). -/
theorem shortage_amount_exact (today : Date) (s : SettingsConfig) (ru : RulesConfig)
    (df : List TransformedRecord) (r : EvaluatedRecord)
    (hr : r ∈ apply_shortage_logic today s ru df) :
    r.shortageAmountUSD = (if r.shortageFlag then r.invoiceDelta else 0) := by
  obtain ⟨a, ha, rfl⟩ := List.mem_map.mp hr
  rfl

/-- Witness for C2 at the boundary fixture: the unflagged record's shortage
amount is 0. -/
theorem shortage_amount_exact_witness :
    (evaluate_record sampleToday sampleSettings sampleRules boundaryRecord).shortageAmountUSD
      = (if (evaluate_record sampleToday sampleSettings sampleRules boundaryRecord).shortageFlag
          then (evaluate_record sampleToday sampleSettings sampleRules boundaryRecord).invoiceDelta
          else 0) :=
  shortage_amount_exact sampleToday sampleSettings sampleRules [boundaryRecord]
    (evaluate_record sampleToday sampleSettings sampleRules boundaryRecord)
    (List.mem_map.mpr ⟨boundaryRecord, List.mem_singleton.mpr rfl, rfl⟩)

/-- Claim C3: after shortage evaluation every record's `Days_Past_Due` is a
non-negative integer, an unparseable due date yields 0, and the age bucket
is `"Aged"` iff `Days_Past_Due` strictly exceeds the aging threshold,
otherwise `"Current"`. -/
theorem days_past_due_and_age_bucket (today : Date) (s : SettingsConfig) (ru : RulesConfig)
    (df : List TransformedRecord) (r : EvaluatedRecord)
    (hr : r ∈ apply_shortage_logic today s ru df) :
    0 ≤ r.daysPastDue
    ∧ (shortage_parse_due r.paymentDueDate = none → r.daysPastDue = 0)
    ∧ (r.ageBucket = "Aged" ↔ s.aging_days_threshold < r.daysPastDue)
    ∧ (r.ageBucket ≠ "Aged" → r.ageBucket = "Current") := by
  obtain ⟨a, ha, rfl⟩ := List.mem_map.mp hr
  refine ⟨?_, ?_, ?_, ?_⟩
  · rw [evaluate_record_daysPastDue]
    cases h : shortage_parse_due a.paymentDueDate with
    | none => simp
    | some d => simp [le_max_iff]
  · intro hnone
    rw [evaluate_record_daysPastDue]
    have h : shortage_parse_due a.paymentDueDate = none := hnone
    rw [h]
  · rw [evaluate_record_ageBucket]
    by_cases h : s.aging_days_threshold < (evaluate_record today s ru a).daysPastDue
    · simp [h]
    · simp [h]
  · rw [evaluate_record_ageBucket]
    by_cases h : s.aging_days_threshold < (evaluate_record today s ru a).daysPastDue
    · simp [h]
    · simp [h]

/-- Witness for C3 at the boundary fixture (due 100 days before the frozen
today, threshold 90): days past due is 100 and the bucket is Aged. -/
theorem days_past_due_and_age_bucket_witness :
    0 ≤ (evaluate_record sampleToday sampleSettings sampleRules boundaryRecord).daysPastDue
    ∧ (evaluate_record sampleToday sampleSettings sampleRules boundaryRecord).ageBucket
        = "Aged" :=
  ⟨(days_past_due_and_age_bucket sampleToday sampleSettings sampleRules [boundaryRecord]
      (evaluate_record sampleToday sampleSettings sampleRules boundaryRecord)
      (List.mem_map.mpr ⟨boundaryRecord, List.mem_singleton.mpr rfl, rfl⟩)).1,
    ((days_past_due_and_age_bucket sampleToday sampleSettings sampleRules [boundaryRecord]
      (evaluate_record sampleToday sampleSettings sampleRules boundaryRecord)
      (List.mem_map.mpr ⟨boundaryRecord, List.mem_singleton.mpr rfl, rfl⟩)).2.2.1).mpr
      (by decide)⟩

/-! ## Claim theorems: Transform -/

/-- Claim C4: Transform's `Invoice_Delta` column is, row by row, the
rounding (to the configured number of decimals) of the invoice amount minus
the paid amount, with a missing amount treated as 0 before the subtraction;
the column's type is total (`ℚ`, not `Option ℚ`), so a delta is never
missing. -/
theorem invoice_delta_round_of_defaulted_difference (s : SettingsConfig)
    (df : List RawRecord) :
    (transform_invoices s df).map (fun r => r.invoiceDelta) =
      df.map (fun a =>
        roundTo s.round_decimals
          ((match a.invoiceAmount with | some v => v | none => 0)
            - (match a.actualPaidAmount with | some v => v | none => 0))) := by
  simp only [transform_invoices, List.map_map]
  refine List.map_congr_left ?_
  intro a _
  cases h : a.invoiceAmount <;> cases h2 : a.actualPaidAmount <;>
    simp [transform_record, h, h2]

/-- Claim C5: Transform's `Child_Invoice_Present` column is true on a row
iff the child-invoice cell is present and trims to a non-empty string; an
absent cell or a whitespace-only string yields false. -/
theorem child_invoice_present_iff_trimmed_nonempty (s : SettingsConfig)
    (df : List RawRecord) :
    (transform_invoices s df).map (fun r => r.childInvoicePresent) =
      df.map (fun a =>
        match a.randomizedLatestChildInvoice with
        | none => false
        | some str => decide (strTrim str ≠ "")) := by
  simp only [transform_invoices, List.map_map]
  refine List.map_congr_left ?_
  intro a _
  show (transform_record s a).childInvoicePresent = _
  cases h : a.randomizedLatestChildInvoice with
  | none => simp [transform_record, h]
  | some str =>
    simp only [transform_record, h, Option.map_some, Option.getD_some]
    by_cases hs : strTrim str = ""
    · simp [hs]
    · simp [hs]

/-! ## Claim theorems: QualityValidator -/

/-- A date cell that violates `_validate_dates` against a given today: it
fails to parse under the validator's default convention, or it parses to a
date strictly later than today. -/
def badDateCell (today : Date) (c : DateCell) : Prop :=
  to_datetime false c = none
    ∨ ∃ d, to_datetime false c = some d ∧ today.toDays < d.toDays

instance (today : Date) (c : DateCell) : Decidable (badDateCell today c) := by
  unfold badDateCell
  cases to_datetime false c with
  | none => exact isTrue (Or.inl rfl)
  | some d =>
    by_cases h : today.toDays < d.toDays
    · exact isTrue (Or.inr ⟨d, rfl, h⟩)
    · refine isFalse ?_
      rintro (hc | ⟨d2, hd2, hlt⟩)
      · exact Option.noConfusion hc
      · exact h (by cases Option.some.inj hd2; exact hlt)

/-- A column pass of `_validate_dates` over a list of cells containing a
violating cell necessarily raises. -/
theorem validate_date_column_error_of_bad (today : Date) (column : String)
    (cells : List DateCell) (hbad : ∃ c ∈ cells, badDateCell today c) :
    ∃ e, validate_date_column today column cells = Except.error e := by
  obtain ⟨c, hc, hb⟩ := hbad
  by_cases hN : cells.any (fun c => (to_datetime false c).isNone)
  · exact ⟨ValidationError.invalidDate column, by simp [validate_date_column, hN]⟩
  · have hall : ∀ x ∈ cells, (to_datetime false x).isNone = false := by
      intro x hx
      by_contra hcontra
      exact hN (List.any_eq_true.mpr ⟨x, hx, by
        cases hiso : (to_datetime false x).isNone with
        | true => rfl
        | false => exact absurd hiso hcontra⟩)
    obtain ⟨d, hd, hlt⟩ : ∃ d, to_datetime false c = some d ∧ today.toDays < d.toDays := by
      rcases hb with hnone | hb
      · have hcc := hall c hc
        rw [hnone] at hcc
        exact absurd hcc (by simp)
      · exact hb
    refine ⟨ValidationError.futureDate column, ?_⟩
    have hfut : cells.any (fun c =>
        match to_datetime false c with
        | some d => decide (today.toDays < d.toDays)
        | none => false) = true := by
      refine List.any_eq_true.mpr ⟨c, hc, ?_⟩
      rw [hd]
      exact decide_eq_true hlt
    simp [validate_date_column, hN, hfut]

/-- Claim C6: an empty record set is rejected by `run_quality_checks` with
the empty-input error, before any other validation runs (the result is the
empty-input error no matter what the configuration says). -/
theorem quality_empty_input_rejected (today : Date) (s : SettingsConfig) (ru : RulesConfig) :
    run_quality_checks today [] s ru = Except.error ValidationError.emptyDataFrame := rfl

/-- Claim C7: if any record has one of the three date fields unparseable or
strictly later than today, `run_quality_checks` raises a validation
error. -/
theorem quality_bad_date_rejected (today : Date) (s : SettingsConfig) (ru : RulesConfig)
    (df : List EvaluatedRecord)
    (hbad : (∃ r ∈ df, badDateCell today r.invoiceDate)
      ∨ (∃ r ∈ df, badDateCell today r.paymentDueDate)
      ∨ (∃ r ∈ df, badDateCell today r.invoiceCreationDate)) :
    ∃ e, run_quality_checks today df s ru = Except.error e := by
  have hne : df.isEmpty = false := by
    rcases hbad with ⟨r, hr, _⟩ | ⟨r, hr, _⟩ | ⟨r, hr, _⟩ <;>
      exact List.isEmpty_eq_false_iff_exists_mem.mpr ⟨r, hr⟩
  rw [run_quality_checks, if_neg (by simp [hne])]
  cases hschema : build_schema_validate df with
  | error e => exact ⟨e, rfl⟩
  | ok _ =>
    cases hcur : validate_currency df s.currency_expected with
    | error e => exact ⟨e, rfl⟩
    | ok _ =>
      show ∃ e, validate_dates today df = Except.error e
      rw [validate_dates]
      cases h1 : validate_date_column today "Invoice Date" (df.map (fun r => r.invoiceDate)) with
      | error e => exact ⟨e, rfl⟩
      | ok _ =>
        cases h2 : validate_date_column today "Payment Due Date"
            (df.map (fun r => r.paymentDueDate)) with
        | error e => exact ⟨e, rfl⟩
        | ok _ =>
          rcases hbad with ⟨r, hr, hb⟩ | ⟨r, hr, hb⟩ | ⟨r, hr, hb⟩
          · obtain ⟨e, he⟩ := validate_date_column_error_of_bad today "Invoice Date"
              (df.map (fun r => r.invoiceDate)) ⟨r.invoiceDate, List.mem_map.mpr ⟨r, hr, rfl⟩, hb⟩
            rw [he] at h1
            exact Except.noConfusion h1
          · obtain ⟨e, he⟩ := validate_date_column_error_of_bad today "Payment Due Date"
              (df.map (fun r => r.paymentDueDate))
              ⟨r.paymentDueDate, List.mem_map.mpr ⟨r, hr, rfl⟩, hb⟩
            rw [he] at h2
            exact Except.noConfusion h2
          · exact validate_date_column_error_of_bad today "Invoice Creation Date"
              (df.map (fun r => r.invoiceCreationDate))
              ⟨r.invoiceCreationDate, List.mem_map.mpr ⟨r, hr, rfl⟩, hb⟩

/-- A fully valid evaluated row (the valid fixture of `tests/test_quality.py`,
with explicit dates around the frozen today). -/
def validEvaluated : EvaluatedRecord :=
  { invoiceDate := DateCell.dt ⟨2025, 6, 10⟩
    paymentDueDate := DateCell.dt ⟨2025, 6, 10⟩
    invoiceStatus := "PAID"
    actualPaidAmount := 95
    paidAmountCurrency := "USD"
    invoiceCreationDate := DateCell.dt ⟨2025, 6, 5⟩
    randomizedInvoice := "INV-001"
    invoiceAmount := 100
    invoiceCurrency := "USD"
    anyDeductions := true
    randomizedLatestChildInvoice := none
    randomizedPO := "PO-123"
    invoiceDelta := 5
    childInvoicePresent := false
    paymentYear := some 2025
    shortageFlag := true
    shortageAmountUSD := 5
    daysPastDue := 5
    ageBucket := "Current" }

/-- The valid row with its payment due date moved one day past the frozen
today (Scenario 5 of the spec). -/
def futureDueEvaluated : EvaluatedRecord :=
  { validEvaluated with paymentDueDate := DateCell.dt ⟨2025, 6, 16⟩ }

/-- Witness for C7: a record whose payment due date is one day in the
future is rejected. -/
theorem quality_bad_date_rejected_witness :
    ∃ e, run_quality_checks sampleToday [futureDueEvaluated] sampleSettings sampleRules
      = Except.error e :=
  quality_bad_date_rejected sampleToday sampleSettings sampleRules [futureDueEvaluated]
    (Or.inr (Or.inl ⟨futureDueEvaluated, List.mem_singleton.mpr rfl,
      Or.inr ⟨⟨2025, 6, 16⟩, rfl, by decide⟩⟩))

/-- Claim C8: the quality stage never alters the record set: the
state-passing translation leaves the table untouched for every input
(whether it raises or passes), and the pipeline's gate forwards exactly the
input table on success — no record mutated, filtered or dropped, and no
output table produced (`run_quality_checks` returns `Unit`). -/
theorem quality_checks_frame (today : Date) (df : List EvaluatedRecord)
    (s : SettingsConfig) (ru : RulesConfig) :
    (run_quality_checks_state today df s ru).2 = df
    ∧ (∀ e, run_quality_checks today df s ru = Except.error e →
        qualityGate today df s ru = Except.error e)
    ∧ (run_quality_checks today df s ru = Except.ok () →
        qualityGate today df s ru = Except.ok df) := by
  refine ⟨rfl, ?_, ?_⟩
  · intro e he
    simp [qualityGate, he]
  · intro hok
    simp [qualityGate, hok]

/-- Witness for C8: on a valid single-record table the checks pass and the
gate forwards exactly that table. -/
theorem quality_checks_frame_witness :
    qualityGate sampleToday [validEvaluated] sampleSettings sampleRules
      = Except.ok [validEvaluated] :=
  (quality_checks_frame sampleToday [validEvaluated] sampleSettings sampleRules).2.2 (by rfl)

/-! ## Claim theorems: Aggregator -/

/-- The group key of an aggregate row is the year it was built for. -/
theorem mkAgedRow_paymentYear (s : SettingsConfig) (aged : List EvaluatedRecord) (y : Nat) :
    (mkAgedRow s aged y).paymentYear = y := rfl

/-- The year column of `aged_invoices_by_year` is exactly the sorted list of
distinct payment years of the Aged records. -/
theorem aged_invoices_by_year_keys (s : SettingsConfig) (df : List EvaluatedRecord) :
    (aged_invoices_by_year s df).map (fun row => row.paymentYear) =
      ((df.filter (fun r => r.ageBucket == "Aged")).filterMap
        (fun r => r.paymentYear)).toFinset.sort (· ≤ ·) := by
  simp only [aged_invoices_by_year, List.map_map]
  exact (List.map_congr_left (fun y _ => mkAgedRow_paymentYear s _ y)).trans (List.map_id _)

/-- Claim C9: `aged_invoices_by_year` is computed over all Aged records
(shortage-flagged or not); its rows are keyed by the distinct payment years
present among those records (rows without a year excluded), in strictly
ascending order — hence exactly one row per distinct year — and each row
carries that year's invoice count, shortage count, and rounded total
invoice and shortage amounts. -/
theorem aged_invoices_by_year_spec (s : SettingsConfig) (df : List EvaluatedRecord) :
    List.Sorted (· < ·) ((aged_invoices_by_year s df).map (fun row => row.paymentYear))
    ∧ (∀ y : Nat,
        (∃ row ∈ aged_invoices_by_year s df, row.paymentYear = y) ↔
          (∃ r ∈ df, r.ageBucket = "Aged" ∧ r.paymentYear = some y))
    ∧ (∀ row ∈ aged_invoices_by_year s df,
        row.invoiceCount
            = ((df.filter (fun r => r.ageBucket == "Aged")).filter
                (fun r => r.paymentYear == some row.paymentYear)).length
        ∧ row.shortageCount
            = (((df.filter (fun r => r.ageBucket == "Aged")).filter
                (fun r => r.paymentYear == some row.paymentYear)).filter
                (fun r => r.shortageFlag)).length
        ∧ row.totalInvoiceUSD
            = roundTo s.round_decimals
                (((df.filter (fun r => r.ageBucket == "Aged")).filter
                  (fun r => r.paymentYear == some row.paymentYear)).map
                  (fun r => r.invoiceAmount)).sum
        ∧ row.totalShortageUSD
            = roundTo s.round_decimals
                (((df.filter (fun r => r.ageBucket == "Aged")).filter
                  (fun r => r.paymentYear == some row.paymentYear)).map
                  (fun r => r.shortageAmountUSD)).sum) := by
  refine ⟨?_, ?_, ?_⟩
  · rw [aged_invoices_by_year_keys]
    exact Finset.sort_sorted_lt _
  · intro y
    have h1 : (∃ row ∈ aged_invoices_by_year s df, row.paymentYear = y) ↔
        y ∈ (aged_invoices_by_year s df).map (fun row => row.paymentYear) := by
      simp [List.mem_map]
    rw [h1, aged_invoices_by_year_keys, Finset.mem_sort, List.mem_toFinset,
      List.mem_filterMap]
    simp [List.mem_filter, and_assoc]
  · intro row hrow
    simp only [aged_invoices_by_year] at hrow
    obtain ⟨y, hy, rfl⟩ := List.mem_map.mp hrow
    exact ⟨rfl, rfl, rfl, rfl⟩

/-- An Aged 2023 shortage row (Scenario 6 of the spec). -/
def aged2023 : EvaluatedRecord :=
  { validEvaluated with
      paymentYear := some 2023
      ageBucket := "Aged"
      daysPastDue := 120
      shortageFlag := true
      shortageAmountUSD := 10
      invoiceAmount := 110 }

/-- An Aged 2024 non-shortage row (Scenario 6 of the spec). -/
def aged2024 : EvaluatedRecord :=
  { validEvaluated with
      paymentYear := some 2024
      ageBucket := "Aged"
      daysPastDue := 120
      shortageFlag := false
      shortageAmountUSD := 0
      invoiceAmount := 120
      randomizedInvoice := "INV-2" }

/-- Witness for C9 on the two-record Scenario 6 table: a row for year 2023
exists. -/
theorem aged_invoices_by_year_spec_witness :
    ∃ row ∈ aged_invoices_by_year sampleSettings [aged2023, aged2024],
      row.paymentYear = 2023 :=
  ((aged_invoices_by_year_spec sampleSettings [aged2023, aged2024]).2.1 2023).mpr
    ⟨aged2023, by simp, by rfl, by rfl⟩

/-! ## Claim theorems: stage date-convention divergence -/

/-- Claim C10: the shortage stage parses the due-date field with a
hard-coded dayfirst convention while Transform honours the configured
convention, so under a month-first configuration the same string-valued due
date "03/04/2024" is read as 3 April 2024 by the shortage stage but as
4 March 2024 by Transform — two different dates. -/
theorem stage_date_convention_mismatch (s : SettingsConfig)
    (h : s.date_format = "monthfirst") :
    shortage_parse_due (DateCell.str "03/04/2024") = some ⟨2024, 4, 3⟩
    ∧ transform_parse_due s (DateCell.str "03/04/2024") = some ⟨2024, 3, 4⟩
    ∧ shortage_parse_due (DateCell.str "03/04/2024")
        ≠ transform_parse_due s (DateCell.str "03/04/2024") := by
  have hflag : dayfirstFlag s = false := by
    unfold dayfirstFlag
    rw [h]
    decide
  refine ⟨by decide, ?_, ?_⟩
  · rw [transform_parse_due, hflag]
    decide
  · rw [transform_parse_due, hflag]
    decide

/-- The test configuration with the month-first date convention. -/
def monthfirstSettings : SettingsConfig :=
  { sampleSettings with date_format := "monthfirst" }

/-- Witness for C10 at the month-first configuration: the two stages read
"03/04/2024" as different dates. -/
theorem stage_date_convention_mismatch_witness :
    shortage_parse_due (DateCell.str "03/04/2024")
      ≠ transform_parse_due monthfirstSettings (DateCell.str "03/04/2024") :=
  (stage_date_convention_mismatch monthfirstSettings rfl).2.2
